import Mathlib

set_option maxRecDepth 100000

/-!
Verification of the LightBnB data-access layer
(src/LightBnB_WebApp/server/database.js).

The file shallowly embeds the query-construction and result-shaping code:
JavaScript values that flow through truthiness tests and template strings
become the inductive type `JSVal`; the incremental SQL string building of
`getAllProperties` becomes a pure function returning the built statement
together with its positional-parameter list; promise chains (`then`/`catch`)
become explicit `Except`-passing; and the external PostgreSQL engine's
evaluation of the generated statements is modelled by executable Lean
functions over in-memory tables.
-/

namespace LightBnB

/-- A JavaScript value as it appears in this layer: `undefined`, `null`,
a number, or a string.  Only these shapes reach the truthiness tests and
template interpolations of `database.js`. -/
inductive JSVal where
  | undefined
  | null
  | num (n : Int)
  | str (s : String)
deriving DecidableEq, Repr

/-- JavaScript truthiness for `JSVal`: `undefined`, `null`, `0` and the
empty string are falsy, everything else is truthy (mirrors the
`if (options.x)` tests in `getAllProperties`). -/
def truthy : JSVal → Bool
  | .undefined => false
  | .null => false
  | .num n => n != 0
  | .str s => s != ""

/-- JavaScript template-literal stringification of a `JSVal`
(the conversion applied by the backtick interpolations in the source). -/
def jsToString : JSVal → String
  | .undefined => "undefined"
  | .null => "null"
  | .num n => toString n
  | .str s => s

/-- The `options` object accepted by `getAllProperties`.  A key that is
absent from the JavaScript object reads as `undefined`, so absence is
represented by the field holding `JSVal.undefined`. -/
structure SearchOptions where
  owner_id : JSVal := .undefined
  city : JSVal := .undefined
  minimum_price_per_night : JSVal := .undefined
  maximum_price_per_night : JSVal := .undefined
  minimum_rating : JSVal := .undefined
deriving DecidableEq, Repr

/-- The fixed SELECT/FROM/JOIN prefix of the statement built by
`getAllProperties` (the template literal at lines 154-158 of
database.js, with its literal newlines and indentation). -/
def baseSelect : String :=
  "\n  SELECT properties.*, AVG(property_reviews.rating) AS average_rating\n  FROM properties\n    JOIN property_reviews ON properties.id = property_id\n  "

/-- The statement text and positional-parameter list built by
`getAllProperties` (database.js lines 150-201), embedded line by line:
`queryParams` collects the pushed parameters, `whereAnd` starts as
`"WHERE"` and is reassigned to `"AND"` only where the source does so
(the `owner_id` and `maximum_price_per_night` branches do not reassign
it, faithfully reproducing the source).  The final element of the
parameter list is the raw `limit` value. -/
def getAllPropertiesQuery (options : SearchOptions) (limit : JSVal) :
    String × List JSVal :=
  let queryParams : List JSVal := []
  let whereAnd : String := "WHERE"
  let queryString : String := baseSelect
  let owner := options.owner_id
  let (queryParams, queryString) :=
    if truthy owner then
      let queryParams := queryParams ++ [JSVal.str (jsToString owner)]
      (queryParams,
        queryString ++ whereAnd ++ " owner_id = $" ++
          toString queryParams.length ++ " ")
    else (queryParams, queryString)
  let city := options.city
  let (queryParams, queryString, whereAnd) :=
    if truthy city then
      let queryParams :=
        queryParams ++ [JSVal.str ("%" ++ jsToString city ++ "%")]
      (queryParams,
        queryString ++ whereAnd ++ " city LIKE $" ++
          toString queryParams.length ++ " ",
        "AND")
    else (queryParams, queryString, whereAnd)
  let minPrice := options.minimum_price_per_night
  let (queryParams, queryString, whereAnd) :=
    if truthy minPrice then
      let queryParams := queryParams ++ [JSVal.str (jsToString minPrice)]
      (queryParams,
        queryString ++ "\n    " ++ whereAnd ++ " cost_per_night / 100 > $" ++
          toString queryParams.length ++ " \n    ",
        "AND")
    else (queryParams, queryString, whereAnd)
  let maxPrice := options.maximum_price_per_night
  let (queryParams, queryString) :=
    if truthy maxPrice then
      let queryParams := queryParams ++ [JSVal.str (jsToString maxPrice)]
      (queryParams,
        queryString ++ "\n    " ++ whereAnd ++ " cost_per_night / 100 < $" ++
          toString queryParams.length ++ "\n    ")
    else (queryParams, queryString)
  let queryString := queryString ++ "GROUP BY properties.id "
  let minRating := options.minimum_rating
  let (queryParams, queryString) :=
    if truthy minRating then
      let queryParams := queryParams ++ [JSVal.str (jsToString minRating)]
      (queryParams,
        queryString ++ "\n    HAVING AVG(property_reviews.rating) >= $" ++
          toString queryParams.length ++ " ")
    else (queryParams, queryString)
  let queryParams := queryParams ++ [limit]
  let queryString := queryString ++ "\n  ORDER BY cost_per_night\n  LIMIT $" ++
    toString queryParams.length ++ ";\n  "
  (queryString, queryParams)

/-- Does `needle` occur as a contiguous substring of `hay`?
Used to state facts about the generated SQL text. -/
def strContains (hay needle : String) : Bool :=
  (List.range (hay.toList.length + 1)).any
    (fun i => needle.toList.isPrefixOf (hay.toList.drop i))

/-- Number of positions of `hay` at which `needle` occurs as a contiguous
substring (occurrences counted at every starting offset). -/
def countOccs (hay needle : String) : Nat :=
  (List.range (hay.toList.length + 1)).countP
    (fun i => needle.toList.isPrefixOf (hay.toList.drop i))

/-- Scanner state machine collecting the numbers of the positional
placeholders of a SQL text, in order of appearance: a dollar sign starts a
placeholder, subsequent digits extend its number.  The accumulator holds
the number being read, if a placeholder is in progress. -/
def placeholdersAux : List Char → Option Nat → List Nat
  | [], none => []
  | [], some n => [n]
  | c :: rest, none =>
      if c = '$' then placeholdersAux rest (some 0)
      else placeholdersAux rest none
  | c :: rest, some n =>
      if c.isDigit then placeholdersAux rest (some (n * 10 + (c.toNat - 48)))
      else if c = '$' then n :: placeholdersAux rest (some 0)
      else n :: placeholdersAux rest none

/-- The numbers of the positional placeholders appearing in a SQL text,
in order of appearance. -/
def extractPlaceholders (s : String) : List Nat :=
  placeholdersAux s.toList none

/-- Does `f` hold of some suffix of the list (the list itself included)?
This is the effect of a percent wildcard: it consumes an arbitrary prefix
of the value and hands the remaining suffix to the rest of the pattern. -/
def likeSuffix (f : List Char → Bool) : List Char → Bool
  | [] => f []
  | v :: vs => f (v :: vs) || likeSuffix f vs

/-- PostgreSQL `LIKE` pattern matching over character lists, with the
default (no escape character) semantics: a percent sign matches any
sequence of characters, an underscore matches any single character, and
every other pattern character matches exactly itself — in particular the
comparison of ordinary characters is case-sensitive. -/
def likeM : List Char → List Char → Bool
  | [], vs => vs.isEmpty
  | p :: ps, vs =>
      if p = '%' then likeSuffix (likeM ps) vs
      else
        match vs with
        | [] => false
        | v :: vs' => (if p = '_' then true else p == v) && likeM ps vs'

/-- PostgreSQL `value LIKE pattern` on strings. -/
def likeMatch (pattern value : String) : Bool :=
  likeM pattern.toList value.toList

/-! ## Promise chains

A settled promise is either fulfilled with a value or rejected with an
error message.  `pThen` and `pCatch` mirror the JavaScript `then`/`catch`
combinators as they are used in database.js: a rejected promise skips the
`then` handler, a fulfilled one skips the `catch` handler. -/

/-- The JavaScript value a database operation finally resolves to:
a single row, a list of rows, `null`, or `undefined`. -/
inductive JSOut (α : Type) where
  | value (a : α)
  | list (l : List α)
  | null
  | undefined
deriving DecidableEq, Repr

/-- The `then` combinator: apply the handler to a fulfilled value; the
handler may itself throw (`Except.error`). -/
def pThen (p : Except String α) (f : α → Except String β) : Except String β :=
  match p with
  | .error e => .error e
  | .ok a => f a

/-- The `catch` combinator: the handler consumes a rejection and yields a
fulfilled value. -/
def pCatch (p : Except String α) (g : String → α) : Except String α :=
  match p with
  | .error e => .ok (g e)
  | .ok a => .ok a

/-! ## The six exposed operations

Each takes the outcome of `pool.query` — the row list on success, the
error message on failure — and applies the source's `then`/`catch`
handlers.  The handlers never inspect the contents of a row, only whether
`res.rows[0]` exists, so the row type is a parameter. -/

/-- Result shaping of `getUserWithEmail` (database.js lines 23-45): the
`then` handler throws when there is no first row, otherwise returns it;
the `catch` handler logs and returns `null`. -/
def getUserWithEmail (q : Except String (List α)) : Except String (JSOut α) :=
  pCatch
    (pThen q (fun res =>
      match res with
      | [] => .error "Invalid email address"
      | u :: _ => .ok (JSOut.value u)))
    (fun _ => JSOut.null)

/-- Result shaping of `getUserWithId` (database.js lines 53-75): same
shape as `getUserWithEmail` with a different thrown message. -/
def getUserWithId (q : Except String (List α)) : Except String (JSOut α) :=
  pCatch
    (pThen q (fun res =>
      match res with
      | [] => .error "Invalid user id"
      | u :: _ => .ok (JSOut.value u)))
    (fun _ => JSOut.null)

/-- Result shaping of `addUser` (database.js lines 83-101): the `then`
handler returns `res.rows[0]` — `undefined` when the row list is empty —
and the `catch` handler returns `null`. -/
def addUser (q : Except String (List α)) : Except String (JSOut α) :=
  pCatch
    (pThen q (fun res =>
      match res with
      | [] => .ok JSOut.undefined
      | u :: _ => .ok (JSOut.value u)))
    (fun _ => JSOut.null)

/-- Result shaping of `getAllReservations` (database.js lines 111-139):
the `then` handler returns the whole row list, the `catch` handler
returns `null`. -/
def getAllReservations (q : Except String (List α)) : Except String (JSOut α) :=
  pCatch (pThen q (fun res => .ok (JSOut.list res))) (fun _ => JSOut.null)

/-- Result shaping of `getAllProperties` (database.js lines 203-210): the
`then` handler returns the whole row list; the `catch` handler only logs,
so the chain resolves to `undefined` on error. -/
def getAllProperties (q : Except String (List α)) : Except String (JSOut α) :=
  pCatch (pThen q (fun res => .ok (JSOut.list res))) (fun _ => JSOut.undefined)

/-- Result shaping of `addProperty` (database.js lines 220-240): same
shape as `addUser`. -/
def addProperty (q : Except String (List α)) : Except String (JSOut α) :=
  pCatch
    (pThen q (fun res =>
      match res with
      | [] => .ok JSOut.undefined
      | u :: _ => .ok (JSOut.value u)))
    (fun _ => JSOut.null)

/-! ## The external database

The relational engine is an external collaborator ("execute SQL, return
rows or fail").  The definitions below model PostgreSQL's evaluation of
the fixed statements issued by database.js over in-memory tables. -/

/-- A row of the `users` table. -/
structure User where
  id : Nat
  name : String
  email : String
  password : String
deriving DecidableEq, Repr

/-- The fields supplied to `addUser`. -/
structure NewUser where
  name : String
  password : String
  email : String
deriving DecidableEq, Repr

/-- Rows produced by the statement of `getUserWithEmail`:
`SELECT id, name, email, password FROM users WHERE email = $1`. -/
def usersWhereEmail (table : List User) (email : String) : List User :=
  table.filter (fun u => u.email == email)

/-- PostgreSQL evaluation of the statement of `addUser`:
`INSERT INTO users(name, password, email) VALUES($1, $2, $3) RETURNING *`
against a table whose next serial id is `nextId` and whose `email` column
carries a unique constraint.  Returns the grown table and the inserted
row, or the constraint-violation error. -/
def insertUser (table : List User) (nextId : Nat) (nu : NewUser) :
    Except String (List User × User) :=
  if table.any (fun u => u.email == nu.email) then
    .error "duplicate key value violates unique constraint"
  else
    let u : User := ⟨nextId, nu.name, nu.email, nu.password⟩
    .ok (table ++ [u], u)

/-- `getUserWithEmail` run end to end against a `users` table. -/
def getUserWithEmailRun (table : List User) (email : String) :
    Except String (JSOut User) :=
  getUserWithEmail (.ok (usersWhereEmail table email))

/-- `addUser` run end to end against a `users` table: the resolved value
together with the table after the call. -/
def addUserRun (table : List User) (nextId : Nat) (nu : NewUser) :
    Except String (JSOut User) × List User :=
  match insertUser table nextId nu with
  | .error e => (addUser (.error e), table)
  | .ok (t, u) => (addUser (.ok [u]), t)

/-- A row of the `properties` table (the columns this layer's statements
compare against; the remaining columns do not influence any claim). -/
structure Property where
  id : Nat
  owner_id : Nat
  city : String
  cost_per_night : Nat
deriving DecidableEq, Repr

/-- A row of the `property_reviews` table. -/
structure Review where
  property_id : Nat
  rating : ℚ
deriving DecidableEq, Repr

/-- The typed values of the parameters bound by the filters of
`getAllProperties`, as PostgreSQL coerces them for comparison against the
schema's column types (`none` = filter absent). -/
structure TypedFilters where
  owner_id : Option Nat := none
  city : Option String := none
  minimum_price_per_night : Option Nat := none
  maximum_price_per_night : Option Nat := none
  minimum_rating : Option ℚ := none
deriving DecidableEq, Repr

/-- The WHERE conditions emitted by `getAllProperties`, evaluated on one
`properties` row: `owner_id = $k`, `city LIKE $k` with the pattern
`%city%`, `cost_per_night / 100 > $k`, `cost_per_night / 100 < $k`
(`/` is PostgreSQL integer division on integer operands). -/
def wherePasses (f : TypedFilters) (p : Property) : Bool :=
  (match f.owner_id with
    | some oid => p.owner_id == oid
    | none => true) &&
  (match f.city with
    | some c => likeMatch ("%" ++ c ++ "%") p.city
    | none => true) &&
  (match f.minimum_price_per_night with
    | some m => decide (p.cost_per_night / 100 > m)
    | none => true) &&
  (match f.maximum_price_per_night with
    | some m => decide (p.cost_per_night / 100 < m)
    | none => true)

/-- `JOIN property_reviews ON properties.id = property_id` followed by
`GROUP BY properties.id` with `AVG(property_reviews.rating)`: each
property having at least one review yields one group carrying the average
rating; a property with no reviews produces no joined row and is dropped
by the inner join. -/
def joinGroup (props : List Property) (reviews : List Review) :
    List (Property × ℚ) :=
  props.filterMap (fun p =>
    let rs := (reviews.filter (fun r => r.property_id == p.id)).map Review.rating
    if rs.isEmpty then none else some (p, rs.sum / rs.length))

/-- `ORDER BY cost_per_night` compares grouped rows by their property's
nightly cost. -/
def costLe (a b : Property × ℚ) : Prop :=
  a.1.cost_per_night ≤ b.1.cost_per_night

instance : DecidableRel costLe := fun _ _ => Nat.decLe _ _

instance : IsTotal (Property × ℚ) costLe := ⟨fun _ _ => Nat.le_total _ _⟩

instance : IsTrans (Property × ℚ) costLe := ⟨fun _ _ _ => Nat.le_trans⟩

/-- PostgreSQL evaluation of a well-formed statement built by
`getAllProperties` (one whose filter combination does not hit the
double-WHERE defect): apply the WHERE conditions, join and group with
average rating, apply `HAVING AVG(rating) >= $k` when present, sort by
`cost_per_night` ascending, and truncate to `LIMIT`. -/
def runSearch (f : TypedFilters) (limit : Nat) (props : List Property)
    (reviews : List Review) : List (Property × ℚ) :=
  let filtered := props.filter (wherePasses f)
  let grouped := joinGroup filtered reviews
  let afterHaving :=
    match f.minimum_rating with
    | some r => grouped.filter (fun pr => decide (r ≤ pr.2))
    | none => grouped
  (List.insertionSort costLe afterHaving).take limit

/-- `getAllProperties` run end to end against the tables, on a filter
combination whose statement is well-formed. -/
def getAllPropertiesRun (f : TypedFilters) (limit : Nat)
    (props : List Property) (reviews : List Review) :
    Except String (JSOut (Property × ℚ)) :=
  getAllProperties (.ok (runSearch f limit props reviews))

/-! ## Helper lemmas -/

/-- The parameter list built by `getAllProperties`: one entry per truthy
filter, in evaluation order, with the raw `limit` last. -/
theorem getAllPropertiesQuery_params (o : SearchOptions) (l : JSVal) :
    (getAllPropertiesQuery o l).2 =
      (if truthy o.owner_id then [JSVal.str (jsToString o.owner_id)] else []) ++
      (if truthy o.city then [JSVal.str ("%" ++ jsToString o.city ++ "%")] else []) ++
      (if truthy o.minimum_price_per_night then
        [JSVal.str (jsToString o.minimum_price_per_night)] else []) ++
      (if truthy o.maximum_price_per_night then
        [JSVal.str (jsToString o.maximum_price_per_night)] else []) ++
      (if truthy o.minimum_rating then
        [JSVal.str (jsToString o.minimum_rating)] else []) ++
      [l] := by
  by_cases h1 : truthy o.owner_id <;> by_cases h2 : truthy o.city <;>
    by_cases h3 : truthy o.minimum_price_per_night <;>
    by_cases h4 : truthy o.maximum_price_per_night <;>
    by_cases h5 : truthy o.minimum_rating <;>
    simp [getAllPropertiesQuery, h1, h2, h3, h4, h5]

/-- The placeholders of the built statement are exactly `$1 … $n` in
order of appearance, where `n` is the length of the parameter list. -/
theorem getAllPropertiesQuery_placeholders (o : SearchOptions) (l : JSVal) :
    extractPlaceholders (getAllPropertiesQuery o l).1 =
      List.range' 1 (getAllPropertiesQuery o l).2.length := by
  by_cases h1 : truthy o.owner_id <;> by_cases h2 : truthy o.city <;>
    by_cases h3 : truthy o.minimum_price_per_night <;>
    by_cases h4 : truthy o.maximum_price_per_night <;>
    by_cases h5 : truthy o.minimum_rating <;>
    · simp only [getAllPropertiesQuery, h1, h2, h3, h4, h5, if_true, if_false,
        Bool.false_eq_true, List.nil_append, List.length_append,
        List.length_singleton, List.length_nil, List.append_nil]
      decide

/-- A percent wildcard matches exactly when the rest of the pattern
matches some suffix of the value. -/
theorem likeSuffix_eq_true_iff (f : List Char → Bool) (vs : List Char) :
    likeSuffix f vs = true ↔ ∃ n, f (vs.drop n) = true := by
  induction vs with
  | nil =>
      constructor
      · intro h; exact ⟨0, h⟩
      · rintro ⟨n, h⟩; simpa using h
  | cons v vs ih =>
      simp only [likeSuffix, Bool.or_eq_true, ih]
      constructor
      · rintro (h | ⟨n, h⟩)
        · exact ⟨0, h⟩
        · exact ⟨n + 1, h⟩
      · rintro ⟨n, h⟩
        cases n with
        | zero => exact Or.inl h
        | succ n => exact Or.inr ⟨n, h⟩

/-- The pattern consisting of a single percent sign matches every value. -/
theorem likeM_pct_nil (u : List Char) : likeM ['%'] u = true := by
  have h : likeM ['%'] u = likeSuffix (likeM []) u := by simp [likeM]
  rw [h, likeSuffix_eq_true_iff]
  exact ⟨u.length, by simp [likeM]⟩

/-- A wildcard-free pattern segment consumes exactly itself from the
front of the value. -/
theorem likeM_literal (s : List Char) (hs : ∀ c ∈ s, c ≠ '%' ∧ c ≠ '_')
    (ps vs : List Char) :
    likeM (s ++ ps) vs = true ↔
      ∃ vs', vs = s ++ vs' ∧ likeM ps vs' = true := by
  induction s generalizing vs with
  | nil => simp
  | cons c s ih =>
      have hc := hs c (List.mem_cons_self c s)
      cases vs with
      | nil =>
          simp only [List.cons_append, likeM, if_neg hc.1]
          constructor
          · intro h; exact absurd h (by simp)
          · rintro ⟨vs', h, -⟩; exact absurd h (by simp)
      | cons v vs =>
          simp only [List.cons_append, likeM, if_neg hc.1, if_neg hc.2,
            Bool.and_eq_true, beq_iff_eq, List.append_eq]
          rw [ih (fun c' hc' => hs c' (List.mem_cons_of_mem _ hc'))]
          constructor
          · rintro ⟨hcv, vs', rfl, h⟩
            exact ⟨vs', by rw [hcv], h⟩
          · rintro ⟨vs', heq, h⟩
            rw [List.cons_eq_cons] at heq
            exact ⟨heq.1.symm, vs', heq.2, h⟩

/-- For a wildcard-free segment `s`, the pattern `%s%` accepts exactly
the values containing `s` as a contiguous substring — and the comparison
of the characters of `s` is by equality, hence case-sensitive. -/
theorem likeM_substring (s : List Char) (hs : ∀ c ∈ s, c ≠ '%' ∧ c ≠ '_')
    (vs : List Char) :
    likeM ('%' :: (s ++ ['%'])) vs = true ↔ s <:+: vs := by
  have h0 : likeM ('%' :: (s ++ ['%'])) vs
      = likeSuffix (likeM (s ++ ['%'])) vs := by simp [likeM]
  rw [h0, likeSuffix_eq_true_iff]
  constructor
  · rintro ⟨n, h⟩
    rw [likeM_literal s hs] at h
    obtain ⟨u, hu, -⟩ := h
    refine ⟨vs.take n, u, ?_⟩
    rw [List.append_assoc, ← hu, List.take_append_drop]
  · rintro ⟨pre, post, heq⟩
    refine ⟨pre.length, ?_⟩
    rw [likeM_literal s hs]
    refine ⟨post, ?_, likeM_pct_nil post⟩
    rw [← heq, List.append_assoc, List.drop_left]

/-- String-level version of `likeM_substring` for the patterns built by
the city filter. -/
theorem likeMatch_city_pattern (s v : String)
    (hs : ∀ c ∈ s.toList, c ≠ '%' ∧ c ≠ '_') :
    likeMatch ("%" ++ s ++ "%") v = true ↔ s.toList <:+: v.toList := by
  have h : ("%" ++ s ++ "%").toList = '%' :: (s.toList ++ ['%']) := by
    show (("%" ++ s) ++ "%").data = _
    rw [String.data_append, String.data_append]
    rfl
  rw [likeMatch, h]
  exact likeM_substring s.toList hs v.toList

/-! ## Claims -/

/-- C1: the claim states that with `options.city` present and a prior
condition in place (in particular `options.owner_id` present) the city
condition is joined with AND and the statement contains exactly one WHERE
keyword.  The code never reassigns `whereAnd` in the `owner_id` branch,
so with both filters present the built statement contains the fragment
"WHERE owner_id = $1 WHERE city LIKE $2": two WHERE keywords, no AND —
this theorem evaluates the builder at that failing input. -/
theorem getAllProperties_owner_city_two_WHERE :
    countOccs (getAllPropertiesQuery
      { owner_id := JSVal.num 1, city := JSVal.str "Vancouver" }
      (JSVal.num 10)).1 "WHERE" = 2 ∧
    strContains (getAllPropertiesQuery
      { owner_id := JSVal.num 1, city := JSVal.str "Vancouver" }
      (JSVal.num 10)).1 "WHERE owner_id = $1 WHERE city LIKE $2" = true ∧
    strContains (getAllPropertiesQuery
      { owner_id := JSVal.num 1, city := JSVal.str "Vancouver" }
      (JSVal.num 10)).1 "AND" = false :=
  ⟨by decide, by decide, by decide⟩

/-- C2: each truthy filter contributes exactly one positional parameter,
bound in evaluation order (owner_id, city, minimum_price_per_night,
maximum_price_per_night, minimum_rating) with the raw limit last, and the
placeholders of the statement are exactly `$1 … $n` in order, `n` being
the length of the bound parameter list. -/
theorem getAllProperties_param_order_and_placeholders
    (o : SearchOptions) (l : JSVal) :
    (getAllPropertiesQuery o l).2 =
      (if truthy o.owner_id then [JSVal.str (jsToString o.owner_id)] else []) ++
      (if truthy o.city then [JSVal.str ("%" ++ jsToString o.city ++ "%")] else []) ++
      (if truthy o.minimum_price_per_night then
        [JSVal.str (jsToString o.minimum_price_per_night)] else []) ++
      (if truthy o.maximum_price_per_night then
        [JSVal.str (jsToString o.maximum_price_per_night)] else []) ++
      (if truthy o.minimum_rating then
        [JSVal.str (jsToString o.minimum_rating)] else []) ++
      [l] ∧
    extractPlaceholders (getAllPropertiesQuery o l).1 =
      List.range' 1 (getAllPropertiesQuery o l).2.length :=
  ⟨getAllPropertiesQuery_params o l, getAllPropertiesQuery_placeholders o l⟩

/-- C3 counterexample: the claim states that with no filters the built
statement contains a dangling WHERE keyword; in fact the statement built
for an options object with every filter absent contains no WHERE keyword
at all. -/
theorem getAllProperties_no_filters_no_WHERE_cex :
    strContains (getAllPropertiesQuery {} (JSVal.num 10)).1 "WHERE" = false :=
  by decide

/-- C3 amended: when every filter of the options object is falsy the
built statement contains no WHERE keyword at all (the WHERE prefix is
only emitted inside the filter branches), and is exactly the fixed
SELECT/JOIN prefix followed by GROUP BY, ORDER BY and LIMIT $1. -/
theorem getAllProperties_no_filters_no_WHERE (o : SearchOptions) (l : JSVal)
    (h1 : truthy o.owner_id = false) (h2 : truthy o.city = false)
    (h3 : truthy o.minimum_price_per_night = false)
    (h4 : truthy o.maximum_price_per_night = false)
    (h5 : truthy o.minimum_rating = false) :
    (getAllPropertiesQuery o l).1 =
      baseSelect ++ "GROUP BY properties.id " ++
        "\n  ORDER BY cost_per_night\n  LIMIT $1;\n  " ∧
    strContains (getAllPropertiesQuery o l).1 "WHERE" = false := by
  have he : (getAllPropertiesQuery o l).1 =
      baseSelect ++ "GROUP BY properties.id " ++
        "\n  ORDER BY cost_per_night\n  LIMIT $1;\n  " := by
    simp only [getAllPropertiesQuery, h1, h2, h3, h4, h5, Bool.false_eq_true,
      if_false, List.nil_append, List.length_singleton]
    decide
  exact ⟨he, by rw [he]; decide⟩

/-- C3 amended, witness at the empty options object. -/
theorem getAllProperties_no_filters_no_WHERE_wit :
    truthy JSVal.undefined = false ∧
    ((getAllPropertiesQuery {} (JSVal.num 10)).1 =
      baseSelect ++ "GROUP BY properties.id " ++
        "\n  ORDER BY cost_per_night\n  LIMIT $1;\n  " ∧
    strContains (getAllPropertiesQuery {} (JSVal.num 10)).1 "WHERE" = false) :=
  ⟨rfl, getAllProperties_no_filters_no_WHERE {} (JSVal.num 10) rfl rfl rfl rfl rfl⟩

/-- C5: on a database error `getAllProperties` resolves to `undefined`
while every other exposed operation resolves to `null`, and no operation
ever rejects: every promise chain settles fulfilled whatever the query
outcome. -/
theorem error_sentinels (α : Type) (msg : String) :
    getAllProperties (Except.error msg : Except String (List α)) =
      .ok .undefined ∧
    getUserWithEmail (Except.error msg : Except String (List α)) = .ok .null ∧
    getUserWithId (Except.error msg : Except String (List α)) = .ok .null ∧
    addUser (Except.error msg : Except String (List α)) = .ok .null ∧
    getAllReservations (Except.error msg : Except String (List α)) = .ok .null ∧
    addProperty (Except.error msg : Except String (List α)) = .ok .null ∧
    ∀ q : Except String (List α),
      (getAllProperties q).isOk = true ∧ (getUserWithEmail q).isOk = true ∧
      (getUserWithId q).isOk = true ∧ (addUser q).isOk = true ∧
      (getAllReservations q).isOk = true ∧ (addProperty q).isOk = true := by
  refine ⟨rfl, rfl, rfl, rfl, rfl, rfl, ?_⟩
  intro q
  cases q with
  | error e => exact ⟨rfl, rfl, rfl, rfl, rfl, rfl⟩
  | ok rows =>
      cases rows with
      | nil => exact ⟨rfl, rfl, rfl, rfl, rfl, rfl⟩
      | cons r rs => exact ⟨rfl, rfl, rfl, rfl, rfl, rfl⟩

/-- C4 counterexample: the claim states the city filter is
case-insensitive, accepting or rejecting case-variants together.  With
`city = "a"` the bound pattern is `%a%` (wildcard both sides), and the
LIKE match accepts the value "a" but rejects "A", although the two differ
only in letter case. -/
theorem city_filter_case_insensitive_cex :
    (getAllPropertiesQuery { city := JSVal.str "a" } (JSVal.num 10)).2 =
      [JSVal.str "%a%", JSVal.num 10] ∧
    "a".toList.map Char.toLower = "A".toList.map Char.toLower ∧
    likeMatch "%a%" "a" = true ∧
    likeMatch "%a%" "A" = false :=
  ⟨by decide, by decide, by decide, by decide⟩

/-- C4 amended: when `options.city` is present the filter performs a
case-SENSITIVE substring match: the bound pattern is the city string with
a wildcard on both sides, and (for a wildcard-free city string) it
accepts exactly the values containing the city string as a contiguous
substring, compared character by character by equality. -/
theorem city_filter_case_sensitive_substring (o : SearchOptions)
    (s : String) (l : JSVal) (hc : o.city = JSVal.str s) (hne : s ≠ "")
    (hw : ∀ c ∈ s.toList, c ≠ '%' ∧ c ≠ '_') :
    JSVal.str ("%" ++ s ++ "%") ∈ (getAllPropertiesQuery o l).2 ∧
    (∀ v : String,
      likeMatch ("%" ++ s ++ "%") v = true ↔ s.toList <:+: v.toList) := by
  constructor
  · have hp := getAllPropertiesQuery_params o l
    rw [hp, hc]
    simp [truthy, jsToString, hne]
  · intro v
    exact likeMatch_city_pattern s v hw

/-- C4 amended, witness at city "a" and value "bab". -/
theorem city_filter_case_sensitive_substring_wit :
    ((SearchOptions.mk .undefined (JSVal.str "a") .undefined .undefined
        .undefined).city = JSVal.str "a" ∧
      "a" ≠ "" ∧ (∀ c ∈ "a".toList, c ≠ '%' ∧ c ≠ '_')) ∧
    (JSVal.str ("%" ++ "a" ++ "%") ∈
      (getAllPropertiesQuery
        (SearchOptions.mk .undefined (JSVal.str "a") .undefined .undefined
          .undefined) (JSVal.num 10)).2 ∧
    (∀ v : String,
      likeMatch ("%" ++ "a" ++ "%") v = true ↔ "a".toList <:+: v.toList)) :=
  ⟨⟨rfl, by decide, by decide⟩,
    city_filter_case_sensitive_substring _ "a" (JSVal.num 10) rfl
      (by decide) (by decide)⟩

/-- C6: when no row of the users table carries the requested email the
promise of `getUserWithEmail` resolves to null (the then-handler throws
"Invalid email address", the catch-handler logs and returns null) and
never rejects; a database error produces the same null. -/
theorem getUserWithEmail_not_found (table : List User) (email : String)
    (h : ∀ u ∈ table, u.email ≠ email) :
    getUserWithEmailRun table email = .ok .null ∧
    ∀ msg, getUserWithEmail (Except.error msg : Except String (List User)) =
      .ok .null := by
  have hf : usersWhereEmail table email = [] := by
    rw [usersWhereEmail, List.filter_eq_nil_iff]
    intro u hu
    simpa using h u hu
  constructor
  · rw [getUserWithEmailRun, hf]; rfl
  · intro msg; rfl

/-- C6, witness at a one-row table and an absent email. -/
theorem getUserWithEmail_not_found_wit :
    (∀ u ∈ ([⟨1, "Alice", "alice@example.com", "pw"⟩] : List User),
      u.email ≠ "bob@example.com") ∧
    (getUserWithEmailRun [⟨1, "Alice", "alice@example.com", "pw"⟩]
        "bob@example.com" = .ok .null ∧
      ∀ msg, getUserWithEmail (Except.error msg : Except String (List User)) =
        .ok .null) :=
  ⟨by decide, getUserWithEmail_not_found _ _ (by decide)⟩

/-- C7: with every filter absent, `getAllProperties` resolves to the row
list produced by the statement, which holds at most `limit` rows and is
sorted by non-decreasing `cost_per_night`. -/
theorem getAllProperties_no_options_limit_sorted (limit : Nat)
    (props : List Property) (reviews : List Review) :
    getAllPropertiesRun {} limit props reviews =
      .ok (.list (runSearch {} limit props reviews)) ∧
    (runSearch {} limit props reviews).length ≤ limit ∧
    List.Sorted costLe (runSearch {} limit props reviews) := by
  refine ⟨rfl, ?_, ?_⟩
  · unfold runSearch
    exact List.length_take_le _ _
  · unfold runSearch
    exact List.Pairwise.sublist (List.take_sublist _ _)
      (List.sorted_insertionSort costLe _)

/-- C8: with both price filters present every returned property
satisfies the strict bounds `min < cost_per_night / 100 < max` — and the
generated SQL compares with strict `>` and `<` (shown at the
min = 100, max = 200 instance of the claim). -/
theorem price_filters_strict (f : TypedFilters) (mn mx limit : Nat)
    (props : List Property) (reviews : List Review)
    (hmn : f.minimum_price_per_night = some mn)
    (hmx : f.maximum_price_per_night = some mx) :
    (∀ pr ∈ runSearch f limit props reviews,
        mn < pr.1.cost_per_night / 100 ∧ pr.1.cost_per_night / 100 < mx) ∧
    strContains (getAllPropertiesQuery
      { minimum_price_per_night := JSVal.num 100,
        maximum_price_per_night := JSVal.num 200 } (JSVal.num 10)).1
      "cost_per_night / 100 > $1" = true ∧
    strContains (getAllPropertiesQuery
      { minimum_price_per_night := JSVal.num 100,
        maximum_price_per_night := JSVal.num 200 } (JSVal.num 10)).1
      "cost_per_night / 100 < $2" = true := by
  refine ⟨?_, by decide, by decide⟩
  intro pr hpr
  simp only [runSearch] at hpr
  have h1 := List.mem_of_mem_take hpr
  have h2 := (List.perm_insertionSort costLe _).subset h1
  have h3 : pr ∈ joinGroup (props.filter (wherePasses f)) reviews := by
    cases hr : f.minimum_rating with
    | none => rw [hr] at h2; exact h2
    | some r => rw [hr] at h2; exact (List.mem_filter.mp h2).1
  simp only [joinGroup] at h3
  obtain ⟨p, hp, hsome⟩ := List.mem_filterMap.mp h3
  by_cases he :
      ((reviews.filter (fun r => r.property_id == p.id)).map
        Review.rating).isEmpty = true
  · simp only [he, if_true] at hsome
    exact absurd hsome (by simp)
  · rw [if_neg he] at hsome
    have hpr1 : pr.1 = p := by
      rw [← Option.some.inj hsome]
    have hw := (List.mem_filter.mp hp).2
    simp only [wherePasses, hmn, hmx, Bool.and_eq_true,
      decide_eq_true_eq] at hw
    rw [hpr1]
    constructor <;> tauto

/-- C8, witness at min = 100, max = 200 over a one-property table. -/
theorem price_filters_strict_wit :
    ((⟨none, none, some 100, some 200, none⟩ : TypedFilters).minimum_price_per_night
        = some 100 ∧
     (⟨none, none, some 100, some 200, none⟩ : TypedFilters).maximum_price_per_night
        = some 200) ∧
    ((∀ pr ∈ runSearch ⟨none, none, some 100, some 200, none⟩ 10
        [⟨1, 2, "Vancouver", 15000⟩] [⟨1, 3⟩],
        100 < pr.1.cost_per_night / 100 ∧ pr.1.cost_per_night / 100 < 200) ∧
    strContains (getAllPropertiesQuery
      { minimum_price_per_night := JSVal.num 100,
        maximum_price_per_night := JSVal.num 200 } (JSVal.num 10)).1
      "cost_per_night / 100 > $1" = true ∧
    strContains (getAllPropertiesQuery
      { minimum_price_per_night := JSVal.num 100,
        maximum_price_per_night := JSVal.num 200 } (JSVal.num 10)).1
      "cost_per_night / 100 < $2" = true) :=
  ⟨⟨rfl, rfl⟩, price_filters_strict _ 100 200 10 _ _ rfl rfl⟩

/-- C9: inserting a user whose email is fresh and then looking the same
email up returns the inserted record, whose name and email equal the
input's. -/
theorem addUser_getUserWithEmail_roundtrip (table : List User) (nextId : Nat)
    (nu : NewUser) (h : ∀ u ∈ table, u.email ≠ nu.email) :
    ∃ u : User,
      addUserRun table nextId nu = (.ok (.value u), table ++ [u]) ∧
      getUserWithEmailRun (table ++ [u]) nu.email = .ok (.value u) ∧
      u.name = nu.name ∧ u.email = nu.email := by
  have hany : (table.any fun u => u.email == nu.email) = false := by
    rw [List.any_eq_false]
    intro u hu
    simpa using h u hu
  refine ⟨⟨nextId, nu.name, nu.email, nu.password⟩, ?_, ?_, rfl, rfl⟩
  · simp [addUserRun, insertUser, hany, addUser, pThen, pCatch]
  · rw [getUserWithEmailRun, usersWhereEmail, List.filter_append]
    have hnil : table.filter (fun u => u.email == nu.email) = [] := by
      rw [List.filter_eq_nil_iff]
      intro u hu
      simpa using h u hu
    simp [hnil, getUserWithEmail, pThen, pCatch]

/-- C9, witness inserting into the empty table. -/
theorem addUser_getUserWithEmail_roundtrip_wit :
    (∀ u ∈ ([] : List User), u.email ≠ "alice@example.com") ∧
    (∃ u : User,
      addUserRun [] 1 ⟨"Alice", "pw", "alice@example.com"⟩ =
        (.ok (.value u), [] ++ [u]) ∧
      getUserWithEmailRun ([] ++ [u]) "alice@example.com" = .ok (.value u) ∧
      u.name = "Alice" ∧ u.email = "alice@example.com") :=
  ⟨by decide,
    addUser_getUserWithEmail_roundtrip [] 1 ⟨"Alice", "pw", "alice@example.com"⟩
      (by decide)⟩

/-- C10: a filter key bound to any falsy value (0, the empty string,
null, undefined) contributes no condition and no parameter: the builder's
output is identical to its output with that key absent (undefined). -/
theorem falsy_filter_indistinguishable (o : SearchOptions) (l v : JSVal)
    (h : truthy v = false) :
    getAllPropertiesQuery { o with owner_id := v } l =
      getAllPropertiesQuery { o with owner_id := JSVal.undefined } l ∧
    getAllPropertiesQuery { o with city := v } l =
      getAllPropertiesQuery { o with city := JSVal.undefined } l ∧
    getAllPropertiesQuery { o with minimum_price_per_night := v } l =
      getAllPropertiesQuery { o with minimum_price_per_night := JSVal.undefined } l ∧
    getAllPropertiesQuery { o with maximum_price_per_night := v } l =
      getAllPropertiesQuery { o with maximum_price_per_night := JSVal.undefined } l ∧
    getAllPropertiesQuery { o with minimum_rating := v } l =
      getAllPropertiesQuery { o with minimum_rating := JSVal.undefined } l := by
  have hu : truthy JSVal.undefined = false := rfl
  refine ⟨?_, ?_, ?_, ?_, ?_⟩ <;> simp [getAllPropertiesQuery, h, hu]

/-- C10, witness at the falsy value 0. -/
theorem falsy_filter_indistinguishable_wit :
    truthy (JSVal.num 0) = false ∧
    (getAllPropertiesQuery { ({} : SearchOptions) with owner_id := JSVal.num 0 }
        (JSVal.num 10) =
      getAllPropertiesQuery { ({} : SearchOptions) with owner_id := JSVal.undefined }
        (JSVal.num 10) ∧
    getAllPropertiesQuery { ({} : SearchOptions) with city := JSVal.num 0 }
        (JSVal.num 10) =
      getAllPropertiesQuery { ({} : SearchOptions) with city := JSVal.undefined }
        (JSVal.num 10) ∧
    getAllPropertiesQuery
        { ({} : SearchOptions) with minimum_price_per_night := JSVal.num 0 }
        (JSVal.num 10) =
      getAllPropertiesQuery
        { ({} : SearchOptions) with minimum_price_per_night := JSVal.undefined }
        (JSVal.num 10) ∧
    getAllPropertiesQuery
        { ({} : SearchOptions) with maximum_price_per_night := JSVal.num 0 }
        (JSVal.num 10) =
      getAllPropertiesQuery
        { ({} : SearchOptions) with maximum_price_per_night := JSVal.undefined }
        (JSVal.num 10) ∧
    getAllPropertiesQuery
        { ({} : SearchOptions) with minimum_rating := JSVal.num 0 }
        (JSVal.num 10) =
      getAllPropertiesQuery
        { ({} : SearchOptions) with minimum_rating := JSVal.undefined }
        (JSVal.num 10)) :=
  ⟨by decide, falsy_filter_indistinguishable {} (JSVal.num 10) (JSVal.num 0)
    (by decide)⟩

end LightBnB
